import Mathlib

/-!
Shallow embedding of the secure token lifecycle subsystem of the repository
(src/backend/utils/auth/jwt_utils.py and src/backend/utils/auth/token_storage.py).

Timestamps are modelled as natural numbers (seconds since an arbitrary epoch).
The PostgreSQL tables token_blacklist, refresh_tokens and user_devices are
modelled as in-memory lists of rows; each storage operation takes the current
time (the SQL NOW()) as an explicit argument and returns its result together
with the updated state.  Database failure (a raised exception in any query) is
modelled by a reachability flag on the state: when the flag is off every query
raises, and the except-branches of the Python code are taken.
-/

namespace Svau

/-- Claims payload as built by SecureJWTManager.create_access_token /
create_refresh_token (jwt_utils.py lines 99-115 and 152-165).  A refresh token
simply carries refresh_jti = none, and email/role = none. -/
structure Claims where
  iss : String
  aud : String
  sub : String
  exp : Nat
  iat : Nat
  nbf : Nat
  jti : String
  type : String
  user_id : String
  email : Option String
  role : Option String
  device_fp : String
  client_ip : String
  refresh_jti : Option String
  version : String
deriving Repr, DecidableEq

/-- Error classes raised by the PyJWT library's decode, as discriminated by the
except-clauses of SecureJWTManager.verify_token: ExpiredSignatureError is
caught first; InvalidSignatureError, DecodeError (malformed token),
ImmatureSignatureError, InvalidAudienceError and InvalidIssuerError are all
subclasses of InvalidTokenError and are caught by the second clause. -/
inductive DecodeError where
  | expiredSignature
  | invalidSignature
  | decodeError
  | immatureSignature
  | invalidAudience
  | invalidIssuer
deriving Repr, DecidableEq

/-- Wire token.  jwt.encode over the configured secret and algorithm is
modelled as a constructor remembering the claims and the signing key, and a
structurally malformed token string (one jwt.decode rejects with DecodeError)
is a separate constructor.  This idealizes the HMAC signature as unforgeable
and collision free, which is the standard cryptographic assumption. -/
inductive Token where
  | signed (claims : Claims) (secret : String) (alg : String)
  | raw (s : String)
deriving Repr, DecidableEq

/-- Model of jwt.encode(claims, secret_key, algorithm) (jwt_utils.py 117, 167). -/
def jwtEncode (c : Claims) (secret alg : String) : Token :=
  .signed c secret alg

/-- Model of jwt.decode as called in verify_token (jwt_utils.py 198-212): the
signature is verified against the configured secret and algorithm, then the
claims are validated (nbf, exp, audience, issuer; the required claims of the
options dict are structurally always present in the Claims record). -/
def jwtDecode (tok : Token) (secret alg aud iss : String) (now : Nat) :
    Except DecodeError Claims :=
  match tok with
  | .raw _ => .error .decodeError
  | .signed c s a =>
    if s ≠ secret ∨ a ≠ alg then .error .invalidSignature
    else if now < c.nbf then .error .immatureSignature
    else if c.exp ≤ now then .error .expiredSignature
    else if c.aud ≠ aud then .error .invalidAudience
    else if c.iss ≠ iss then .error .invalidIssuer
    else .ok c

/-- Idealized model of hashlib.sha256(raw).hexdigest(): an opaque injective
encoding of its input (collision freedom of SHA-256 is assumed). -/
def sha256Hex (s : String) : String :=
  "sha256$" ++ s

/-- Request context: the user-agent header and request.client (none models a
request with no client, whose host reads as "unknown" at issuance and as
Python None in the IP-validation block of verify_token). -/
structure Request where
  user_agent : String
  client : Option String
deriving Repr, DecidableEq

/-- SecureJWTManager._create_device_fingerprint (jwt_utils.py 78-83):
sha256 over "user_agent|ip". -/
def create_device_fingerprint (req : Request) : String :=
  sha256Hex (req.user_agent ++ "|" ++ req.client.getD "unknown")

/-- Row of the token_blacklist table. -/
structure BlacklistRow where
  jti : String
  user_id : String
  expires_at : Nat
deriving Repr, DecidableEq

/-- Row of the refresh_tokens table.  The created_at column is not set by the
INSERT in store_refresh_token; its schema is not part of the repository, so,
modelled from the spec (RefreshTokenRecord metadata holds the creation time;
eviction is "oldest by creation time"), created_at defaults to the insertion
time NOW(). -/
structure RefreshTokenRow where
  jti : String
  user_id : String
  device_fp : String
  expires_at : Nat
  created_at : Nat
  metadata : String
deriving Repr, DecidableEq

/-- Row of the user_devices table. -/
structure DeviceRow where
  user_id : String
  device_fp : String
  expires_at : Nat
  metadata : String
  last_seen : Nat
deriving Repr, DecidableEq

/-- State of the PostgreSQL storage backend.  dbOk models reachability of the
database: when it is false every query raises and the except-branches of
PostgreSQLStorage are taken (no state change, error return value). -/
structure PGState where
  token_blacklist : List BlacklistRow
  refresh_tokens : List RefreshTokenRow
  user_devices : List DeviceRow
  dbOk : Bool
deriving Repr, DecidableEq

/-- Insertion into a descending-sorted list, largest key first; used to model
SQL ORDER BY key DESC. -/
def insertByDesc (key : α → Nat) (x : α) : List α → List α
  | [] => [x]
  | y :: ys => if key y < key x then x :: y :: ys else y :: insertByDesc key x ys

/-- Model of SQL ORDER BY key DESC: sort largest key first. -/
def sortByDesc (key : α → Nat) : List α → List α
  | [] => []
  | x :: xs => insertByDesc key x (sortByDesc key xs)

namespace PostgreSQLStorage

/-- INSERT INTO token_blacklist ... ON CONFLICT (jti) DO NOTHING
(token_storage.py 83-87): append the row unless a row with the same jti
already exists. -/
def blInsert (bl : List BlacklistRow) (row : BlacklistRow) : List BlacklistRow :=
  if bl.any (fun b => b.jti == row.jti) then bl else bl ++ [row]

/-- PostgreSQLStorage.blacklist_token (token_storage.py 81-93): insert a
blacklist row expiring expires_in seconds from now; on database failure return
false. -/
def blacklist_token (s : PGState) (jti user_id : String) (expires_in : Nat)
    (now : Nat) : Bool × PGState :=
  if s.dbOk then
    let bl := blInsert s.token_blacklist ⟨jti, user_id, now + expires_in⟩
    (true, { s with token_blacklist := bl })
  else
    (false, s)

/-- PostgreSQLStorage.is_token_blacklisted (token_storage.py 95-103):
SELECT 1 FROM token_blacklist WHERE jti = %s AND expires_at > NOW(); on
database failure fail closed and report the token as blacklisted. -/
def is_token_blacklisted (s : PGState) (jti : String) (now : Nat) : Bool :=
  if s.dbOk then
    s.token_blacklist.any (fun b => b.jti == jti && decide (now < b.expires_at))
  else
    true

/-- The jtis kept by the windowed DELETE of store_refresh_token
(token_storage.py 122-132): the user's rows ordered by created_at DESC,
first max_tokens of them. -/
def keptJtis (rows : List RefreshTokenRow) (user_id : String) (max_tokens : Nat) :
    List String :=
  ((sortByDesc (fun r => r.created_at)
      (rows.filter (fun r => r.user_id == user_id))).take max_tokens).map
    (fun r => r.jti)

/-- PostgreSQLStorage.store_refresh_token (token_storage.py 105-147): upsert
the row (ON CONFLICT (jti) DO UPDATE SET expires_at, metadata — created_at,
user_id and device_fp are left as they were), then delete the user's rows
whose jti is not among the newest max_tokens by created_at. -/
def store_refresh_token (s : PGState) (jti user_id device_fp : String)
    (expires_in : Nat) (metadata : String) (now : Nat) (max_tokens : Nat) :
    Bool × PGState :=
  if s.dbOk then
    let upserted :=
      if s.refresh_tokens.any (fun r => r.jti == jti) then
        s.refresh_tokens.map (fun r =>
          if r.jti == jti then
            { r with expires_at := now + expires_in, metadata := metadata }
          else r)
      else
        s.refresh_tokens ++ [⟨jti, user_id, device_fp, now + expires_in, now, metadata⟩]
    let kept := keptJtis upserted user_id max_tokens
    let pruned := upserted.filter (fun r => r.user_id != user_id || kept.contains r.jti)
    (true, { s with refresh_tokens := pruned })
  else
    (false, s)

/-- PostgreSQLStorage.get_refresh_token (token_storage.py 149-160):
SELECT ... WHERE jti = %s AND expires_at > NOW(); on database failure return
none. -/
def get_refresh_token (s : PGState) (jti : String) (now : Nat) :
    Option RefreshTokenRow :=
  if s.dbOk then
    s.refresh_tokens.find? (fun r => r.jti == jti && decide (now < r.expires_at))
  else
    none

/-- Blacklist row produced for a refresh row by the INSERT ... SELECT of
revoke_user_tokens and revoke_device: it carries the refresh token's own
jti, user_id and expires_at. -/
def toBlacklistRow (r : RefreshTokenRow) : BlacklistRow :=
  ⟨r.jti, r.user_id, r.expires_at⟩

/-- PostgreSQLStorage.revoke_user_tokens (token_storage.py 162-185): insert a
blacklist row (ON CONFLICT DO NOTHING) for each of the user's non-expired
refresh tokens, carrying the refresh token's own expires_at; then delete all
of the user's refresh_tokens rows and all of the user's user_devices rows. -/
def revoke_user_tokens (s : PGState) (user_id : String) (now : Nat) :
    Bool × PGState :=
  if s.dbOk then
    let active := s.refresh_tokens.filter
      (fun r => r.user_id == user_id && decide (now < r.expires_at))
    let bl := active.foldl
      (fun acc r => blInsert acc (toBlacklistRow r))
      s.token_blacklist
    (true,
      { s with
        token_blacklist := bl
        refresh_tokens := s.refresh_tokens.filter (fun r => r.user_id != user_id)
        user_devices := s.user_devices.filter (fun d => d.user_id != user_id) })
  else
    (false, s)

/-- PostgreSQLStorage.revoke_device (token_storage.py 187-216): blacklist the
refresh tokens of one device of the user, then delete that device's refresh
rows and its user_devices row. -/
def revoke_device (s : PGState) (user_id device_fp : String) (_now : Nat) :
    Bool × PGState :=
  if s.dbOk then
    let fromDevice := s.refresh_tokens.filter
      (fun r => r.user_id == user_id && r.device_fp == device_fp)
    let bl := fromDevice.foldl
      (fun acc r => blInsert acc (toBlacklistRow r))
      s.token_blacklist
    (true,
      { s with
        token_blacklist := bl
        refresh_tokens := s.refresh_tokens.filter
          (fun r => !(r.user_id == user_id && r.device_fp == device_fp))
        user_devices := s.user_devices.filter
          (fun d => !(d.user_id == user_id && d.device_fp == device_fp)) })
  else
    (false, s)

/-- PostgreSQLStorage.get_user_devices (token_storage.py 218-230):
SELECT ... WHERE user_id = %s AND expires_at > NOW() ORDER BY last_seen DESC;
on database failure return the empty list. -/
def get_user_devices (s : PGState) (user_id : String) (now : Nat) :
    List DeviceRow :=
  if s.dbOk then
    sortByDesc (fun d => d.last_seen)
      (s.user_devices.filter
        (fun d => d.user_id == user_id && decide (now < d.expires_at)))
  else
    []

/-- PostgreSQLStorage.track_device (token_storage.py 232-253): upsert on
(user_id, device_fp); on conflict refresh expires_at, metadata and last_seen. -/
def track_device (s : PGState) (user_id device_fp : String) (expires_in : Nat)
    (metadata : String) (now : Nat) : Bool × PGState :=
  if s.dbOk then
    let updated :=
      if s.user_devices.any (fun d => d.user_id == user_id && d.device_fp == device_fp) then
        s.user_devices.map (fun d =>
          if d.user_id == user_id && d.device_fp == device_fp then
            { d with expires_at := now + expires_in, metadata := metadata,
                     last_seen := now }
          else d)
      else
        s.user_devices ++ [⟨user_id, device_fp, now + expires_in, metadata, now⟩]
    (true, { s with user_devices := updated })
  else
    (false, s)

/-- PostgreSQLStorage.cleanup_expired (token_storage.py 255-270): delete every
blacklist, refresh and device row whose expires_at ≤ NOW(). -/
def cleanup_expired (s : PGState) (now : Nat) : Bool × PGState :=
  if s.dbOk then
    (true,
      { s with
        token_blacklist := s.token_blacklist.filter (fun b => decide (now < b.expires_at))
        refresh_tokens := s.refresh_tokens.filter (fun r => decide (now < r.expires_at))
        user_devices := s.user_devices.filter (fun d => decide (now < d.expires_at)) })
  else
    (false, s)

end PostgreSQLStorage

/-- Configuration of SecureJWTManager (jwt_utils.py 24-43) together with the
environment options read elsewhere: MAX_REFRESH_TOKENS (token_storage.py 139,
default 5) and ENABLE_IP_VALIDATION (jwt_utils.py 261, default false). -/
structure JWTConfig where
  secret_key : String
  algorithm : String
  access_token_ttl : Nat
  refresh_token_ttl : Nat
  issuer : String
  audience : String
  max_refresh_tokens : Nat
  enable_ip_validation : Bool
deriving Repr, DecidableEq

/-- Default JWT_ACCESS_TTL (jwt_utils.py 30). -/
def JWT_ACCESS_TTL_default : Nat := 300

/-- Default JWT_REFRESH_TTL (jwt_utils.py 31). -/
def JWT_REFRESH_TTL_default : Nat := 86400

/-- Default MAX_REFRESH_TOKENS (token_storage.py 139). -/
def MAX_REFRESH_TOKENS_default : Nat := 5

/-- User identity data handed to issuance (user_data dict: id, email, role). -/
structure UserData where
  id : String
  email : Option String
  role : Option String
deriving Repr, DecidableEq

/-- Metadata dict stored by track_device from create_access_token
(jwt_utils.py 124-128), serialized. -/
def device_metadata (ip user_agent : String) (now : Nat) : String :=
  String.intercalate ";" [ip, user_agent, toString now]

/-- Metadata dict stored by store_refresh_token from create_refresh_token
(jwt_utils.py 174-178), serialized. -/
def refresh_metadata (now expire : Nat) : String :=
  String.intercalate ";" [toString now, toString expire, "valid"]

/-- Outcome of verify_token as the caller observes it: either the claims
payload, or an HTTPException with its status code and detail string. -/
inductive VerifyResult where
  | ok (payload : Claims)
  | error (status_code : Nat) (detail : String)
deriving Repr, DecidableEq

namespace SecureJWTManager

/-- Split of a character list on the dot separator, for the dotted-quad form
consumed by the stdlib ipaddress parser. -/
def splitOnDot : List Char → List Char → List (List Char)
  | [], acc => [acc.reverse]
  | c :: cs, acc =>
    if c = '.' then acc.reverse :: splitOnDot cs []
    else splitOnDot cs (c :: acc)

/-- Decimal parse of a nonempty all-digit character list. -/
def digitsToNat? (cs : List Char) : Option Nat :=
  match cs with
  | [] => none
  | _ =>
    cs.foldl
      (fun acc c =>
        match acc with
        | none => none
        | some n => if c.isDigit then some (n * 10 + (c.toNat - 48)) else none)
      (some 0)

/-- Parse of a dotted-quad IPv4 address into its four octets, modelling the
stdlib ipaddress parser on IPv4 input (any unparsable input yields none,
matching the except-branch of _is_ip_change_allowed). -/
def parseIPv4 (s : String) : Option (Nat × Nat × Nat × Nat) :=
  match (splitOnDot s.data []).map digitsToNat? with
  | [some a, some b, some c, some d] =>
    if a ≤ 255 ∧ b ≤ 255 ∧ c ≤ 255 ∧ d ≤ 255 then some (a, b, c, d) else none
  | _ => none

/-- SecureJWTManager._is_ip_change_allowed (jwt_utils.py 296-304): the new
address must lie in the old address's /24 network (strict=False), i.e. share
the first three octets; on any parse failure return false. -/
def is_ip_change_allowed (old_ip new_ip : String) : Bool :=
  match parseIPv4 old_ip, parseIPv4 new_ip with
  | some (a, b, c, _), some (a2, b2, c2, _) => a == a2 && b == b2 && c == c2
  | _, _ => false

/-- SecureJWTManager.create_access_token (jwt_utils.py 85-138).  The uuid4
jti is modelled as a caller-supplied value (theorems state the freshness the
generator provides as hypotheses).  Builds and signs the claims, then tracks
the device; if device tracking fails, raises HTTPException 500 and hands no
token back. -/
def create_access_token (cfg : JWTConfig) (s : PGState) (user : UserData)
    (req : Request) (refresh_jti : Option String) (jti : String) (now : Nat) :
    Except (Nat × String) (Token × String) × PGState :=
  let device_fp := create_device_fingerprint req
  let client_ip := req.client.getD "unknown"
  let expire := now + cfg.access_token_ttl
  let claims : Claims :=
    { iss := cfg.issuer, aud := cfg.audience, sub := user.id, exp := expire,
      iat := now, nbf := now, jti := jti, type := "access", user_id := user.id,
      email := user.email, role := user.role, device_fp := device_fp,
      client_ip := client_ip, refresh_jti := refresh_jti, version := "1.0" }
  let access_token := jwtEncode claims cfg.secret_key cfg.algorithm
  let tracked := PostgreSQLStorage.track_device s user.id device_fp
    cfg.refresh_token_ttl (device_metadata client_ip req.user_agent now) now
  if tracked.1 then (.ok (access_token, jti), tracked.2)
  else (.error (500, "Authentication failed"), tracked.2)

/-- SecureJWTManager.create_refresh_token (jwt_utils.py 140-188): builds and
signs refresh claims, persists them via store_refresh_token; if persistence
fails, raises HTTPException 500 and hands no token back. -/
def create_refresh_token (cfg : JWTConfig) (s : PGState) (user : UserData)
    (req : Request) (jti : String) (now : Nat) :
    Except (Nat × String) (Token × String) × PGState :=
  let device_fp := create_device_fingerprint req
  let expire := now + cfg.refresh_token_ttl
  let claims : Claims :=
    { iss := cfg.issuer, aud := cfg.audience, sub := user.id, exp := expire,
      iat := now, nbf := now, jti := jti, type := "refresh", user_id := user.id,
      email := none, role := none, device_fp := device_fp,
      client_ip := req.client.getD "unknown", refresh_jti := none,
      version := "1.0" }
  let refresh_token := jwtEncode claims cfg.secret_key cfg.algorithm
  let stored := PostgreSQLStorage.store_refresh_token s jti user.id device_fp
    cfg.refresh_token_ttl (refresh_metadata now expire) now cfg.max_refresh_tokens
  if stored.1 then (.ok (refresh_token, jti), stored.2)
  else (.error (500, "Authentication failed"), stored.2)

/-- The warning logged by the optional IP-validation block of verify_token
(jwt_utils.py 260-273): when ENABLE_IP_VALIDATION is on, the token carries a
client_ip, the request has a client, the two differ and the change is not
within the /24 tolerance, a warning is logged — and nothing else happens. -/
def ip_warnings (cfg : JWTConfig) (payload : Claims) (req : Request) :
    List String :=
  if cfg.enable_ip_validation then
    match req.client with
    | some current_ip =>
      if payload.client_ip ≠ "" ∧ current_ip ≠ "" ∧ payload.client_ip ≠ current_ip then
        if is_ip_change_allowed payload.client_ip current_ip then []
        else ["IP address changed for user " ++ payload.user_id ++ ": " ++
              payload.client_ip ++ " -> " ++ current_ip]
      else []
    | none => []
  else []

/-- SecureJWTManager.verify_token (jwt_utils.py 190-294).  Returns the
observable result paired with the list of warnings logged on the way (device
fingerprint mismatch, IP change).  Decode errors map to the two
except-clauses: ExpiredSignatureError to 401 "Token has expired", every other
InvalidTokenError subclass to 401 "Invalid token".  Then in order: token-type
check, blacklist check (fail closed), refresh-link check for access tokens,
device-fingerprint check (on mismatch, the token's embedded fingerprint must
be among the user's registered devices), optional log-only IP validation. -/
def verify_token (cfg : JWTConfig) (s : PGState) (token : Token) (req : Request)
    (token_type : String) (now : Nat) : VerifyResult × List String :=
  match jwtDecode token cfg.secret_key cfg.algorithm cfg.audience cfg.issuer now with
  | .error .expiredSignature => (.error 401 "Token has expired", [])
  | .error _ => (.error 401 "Invalid token", [])
  | .ok payload =>
    if payload.type ≠ token_type then
      (.error 401 ("Invalid token type. Expected " ++ token_type), [])
    else if PostgreSQLStorage.is_token_blacklisted s payload.jti now then
      (.error 401 "Token has been revoked", [])
    else
      let refreshInvalid :=
        token_type == "access" &&
          (match payload.refresh_jti with
           | some r => (PostgreSQLStorage.get_refresh_token s r now).isNone
           | none => false)
      if refreshInvalid then
        (.error 401 "Refresh token no longer valid", [])
      else
        let current_device_fp := create_device_fingerprint req
        let token_device_fp := payload.device_fp
        if token_device_fp ≠ "" ∧ token_device_fp ≠ current_device_fp then
          let deviceWarning :=
            ["Device fingerprint mismatch for user " ++ payload.user_id]
          let devices := PostgreSQLStorage.get_user_devices s payload.user_id now
          let device_fps := devices.map (fun d => d.device_fp)
          if device_fps.contains token_device_fp then
            (.ok payload, deviceWarning ++ ip_warnings cfg payload req)
          else
            (.error 401 "Device authorization changed", deviceWarning)
        else
          (.ok payload, ip_warnings cfg payload req)

/-- SecureJWTManager.blacklist_token (jwt_utils.py 306-313): thin pass-through
to storage. -/
def blacklist_token (s : PGState) (jti user_id : String) (expiry_seconds : Nat)
    (now : Nat) : Bool × PGState :=
  PostgreSQLStorage.blacklist_token s jti user_id expiry_seconds now

/-- SecureJWTManager.blacklist_token with expiry_seconds omitted: the Python
default argument expiry_seconds = 300 applies (jwt_utils.py 310). -/
def blacklist_token_default (s : PGState) (jti user_id : String) (now : Nat) :
    Bool × PGState :=
  blacklist_token s jti user_id 300 now

/-- SecureJWTManager.revoke_user_tokens (jwt_utils.py 315-317): pass-through. -/
def revoke_user_tokens (s : PGState) (user_id : String) (now : Nat) :
    Bool × PGState :=
  PostgreSQLStorage.revoke_user_tokens s user_id now

/-- SecureJWTManager.get_user_devices (jwt_utils.py 323-325): pass-through. -/
def get_user_devices (s : PGState) (user_id : String) (now : Nat) :
    List DeviceRow :=
  PostgreSQLStorage.get_user_devices s user_id now

end SecureJWTManager

/-! Concrete instances used to evaluate the development on explicit inputs. -/

/-- Example configuration with the documented defaults (access TTL 300,
refresh TTL 86400, max 5 refresh tokens, IP validation off). -/
def exCfg : JWTConfig :=
  ⟨"test-secret", "HS256", 300, 86400, "your-app", "your-app-api", 5, false⟩

/-- Example configuration with ENABLE_IP_VALIDATION turned on. -/
def exCfgIP : JWTConfig :=
  ⟨"test-secret", "HS256", 300, 86400, "your-app", "your-app-api", 5, true⟩

/-- Example user. -/
def exUser : UserData := ⟨"u1", some "user@example.com", some "basic"⟩

/-- Example issuing request: device A. -/
def exReqA : Request := ⟨"agent-A", some "203.0.113.5"⟩

/-- Example presenting request: device B, whose IP is outside the /24 network
of device A's IP. -/
def exReqB : Request := ⟨"agent-B", some "198.51.100.7"⟩

/-- Fingerprint of device A. -/
def exFpA : String := create_device_fingerprint exReqA

/-- Empty storage with a reachable database. -/
def exEmpty : PGState := ⟨[], [], [], true⟩

/-- Empty storage with an unreachable database. -/
def exDown : PGState := ⟨[], [], [], false⟩

/-- Access-token claims issued to user u1 from device A at time 100 with
TTL 300 (so exp 400), as create_access_token builds them. -/
def exClaims : Claims :=
  ⟨"your-app", "your-app-api", "u1", 400, 100, 100, "jti-ex", "access", "u1",
    none, none, exFpA, "203.0.113.5", none, "1.0"⟩

/-- The signed example token. -/
def exTok : Token := jwtEncode exClaims "test-secret" "HS256"

/-- A token signed with a different secret: jwt.decode raises
InvalidSignatureError on it. -/
def exTokBadSig : Token := jwtEncode exClaims "wrong-secret" "HS256"

/-- A structurally malformed token: jwt.decode raises DecodeError on it. -/
def exTokRaw : Token := .raw "not-a-jwt"

/-- Storage whose device registry contains device A for user u1 (as it does
after issuance from device A), with a reachable database. -/
def exStateDev : PGState :=
  ⟨[], [], [⟨"u1", exFpA, 1000, "meta", 100⟩], true⟩

/-! Helper lemmas about the sorting model of SQL ORDER BY ... DESC. -/

theorem perm_insertByDesc (key : α → Nat) (x : α) (l : List α) :
    List.Perm (insertByDesc key x l) (x :: l) := by
  induction l with
  | nil => simp [insertByDesc]
  | cons y ys ih =>
    by_cases h : key y < key x
    · simp [insertByDesc, h]
    · simp only [insertByDesc, if_neg h]
      exact (ih.cons y).trans (List.Perm.swap x y ys)

theorem perm_sortByDesc (key : α → Nat) (l : List α) :
    List.Perm (sortByDesc key l) l := by
  induction l with
  | nil => simp [sortByDesc]
  | cons x xs ih =>
    exact (perm_insertByDesc key x (sortByDesc key xs)).trans (ih.cons x)

theorem mem_sortByDesc {key : α → Nat} {l : List α} {a : α} :
    a ∈ sortByDesc key l ↔ a ∈ l :=
  (perm_sortByDesc key l).mem_iff

theorem pairwise_insertByDesc (key : α → Nat) (x : α) {l : List α}
    (h : l.Pairwise (fun a b => key b ≤ key a)) :
    (insertByDesc key x l).Pairwise (fun a b => key b ≤ key a) := by
  induction l with
  | nil => simp [insertByDesc]
  | cons y ys ih =>
    rw [List.pairwise_cons] at h
    obtain ⟨hy, hys⟩ := h
    by_cases hk : key y < key x
    · simp only [insertByDesc, if_pos hk]
      refine List.Pairwise.cons ?_ (List.Pairwise.cons hy hys)
      intro z hz
      rcases List.mem_cons.mp hz with rfl | hz'
      · exact Nat.le_of_lt hk
      · exact le_trans (hy z hz') (Nat.le_of_lt hk)
    · simp only [insertByDesc, if_neg hk]
      refine List.Pairwise.cons ?_ (ih hys)
      intro z hz
      rcases List.mem_cons.mp ((perm_insertByDesc key x ys).mem_iff.mp hz) with rfl | hz'
      · exact Nat.le_of_not_lt hk
      · exact hy z hz'

theorem pairwise_sortByDesc (key : α → Nat) (l : List α) :
    (sortByDesc key l).Pairwise (fun a b => key b ≤ key a) := by
  induction l with
  | nil => simp [sortByDesc]
  | cons x xs ih => exact pairwise_insertByDesc key x ih

theorem key_le_of_take_drop {key : α → Nat} {l : List α} {n : Nat} {a b : α}
    (h : l.Pairwise (fun a b => key b ≤ key a))
    (ha : a ∈ l.take n) (hb : b ∈ l.drop n) : key b ≤ key a := by
  rw [← List.take_append_drop n l] at h
  exact (List.pairwise_append.mp h).2.2 a ha b hb

theorem mem_take_sortByDesc {key : α → Nat} {l : List α} {x : α} {n : Nat}
    (hn : 1 ≤ n) (hx : x ∈ l)
    (hmax : ∀ y ∈ l, y ≠ x → key y < key x) :
    x ∈ (sortByDesc key l).take n := by
  have hperm := perm_sortByDesc key l
  have hxs : x ∈ sortByDesc key l := hperm.mem_iff.mpr hx
  have hpw := pairwise_sortByDesc key l
  obtain ⟨m, rfl⟩ : ∃ m, n = m + 1 := ⟨n - 1, (Nat.succ_pred_eq_of_pos hn).symm⟩
  cases hsl : sortByDesc key l with
  | nil => rw [hsl] at hxs; cases hxs
  | cons h rest =>
    rw [hsl] at hxs hpw
    rw [List.take_succ_cons]
    rcases List.mem_cons.mp hxs with rfl | hxrest
    · exact List.mem_cons_self _ _
    · rw [List.pairwise_cons] at hpw
      have h1 : key x ≤ key h := hpw.1 x hxrest
      have hhl : h ∈ l := hperm.mem_iff.mp (hsl ▸ List.mem_cons_self h rest)
      by_cases heq : h = x
      · subst heq; exact List.mem_cons_self _ _
      · have := hmax h hhl heq; omega

/-! Helper lemmas about ON CONFLICT (jti) DO NOTHING insertion. -/

namespace PostgreSQLStorage

theorem mem_blInsert_of_mem {bl : List BlacklistRow} {row b : BlacklistRow}
    (h : b ∈ bl) : b ∈ blInsert bl row := by
  unfold blInsert; split
  · exact h
  · exact List.mem_append_left _ h

theorem eq_or_mem_of_mem_blInsert {bl : List BlacklistRow} {row b : BlacklistRow}
    (h : b ∈ blInsert bl row) : b ∈ bl ∨ b = row := by
  unfold blInsert at h; split at h
  · exact Or.inl h
  · rcases List.mem_append.mp h with h' | h'
    · exact Or.inl h'
    · exact Or.inr (List.mem_singleton.mp h')

theorem self_mem_blInsert {bl : List BlacklistRow} {row : BlacklistRow}
    (h : ∀ b ∈ bl, b.jti ≠ row.jti) : row ∈ blInsert bl row := by
  unfold blInsert
  rw [if_neg]
  · exact List.mem_append_right _ (List.mem_singleton.mpr rfl)
  · intro hc
    obtain ⟨b, hb, hbeq⟩ := List.any_eq_true.mp hc
    exact h b hb (beq_iff_eq.mp hbeq)

theorem mem_foldl_blInsert_of_mem (l : List RefreshTokenRow)
    (acc : List BlacklistRow) {b : BlacklistRow} (h : b ∈ acc) :
    b ∈ l.foldl (fun a r => blInsert a (toBlacklistRow r)) acc := by
  induction l generalizing acc with
  | nil => exact h
  | cons x xs ih => exact ih _ (mem_blInsert_of_mem h)

theorem mem_foldl_blInsert (l : List RefreshTokenRow) (acc : List BlacklistRow)
    {b : BlacklistRow}
    (h : b ∈ l.foldl (fun a r => blInsert a (toBlacklistRow r)) acc) :
    b ∈ acc ∨ ∃ r ∈ l, b = toBlacklistRow r := by
  induction l generalizing acc with
  | nil => exact Or.inl h
  | cons x xs ih =>
    rw [List.foldl_cons] at h
    rcases ih _ h with h' | ⟨r, hr, rfl⟩
    · rcases eq_or_mem_of_mem_blInsert h' with h'' | rfl
      · exact Or.inl h''
      · exact Or.inr ⟨x, List.mem_cons_self _ _, rfl⟩
    · exact Or.inr ⟨r, List.mem_cons_of_mem _ hr, rfl⟩

theorem foldl_blInsert_adds (l : List RefreshTokenRow) (acc : List BlacklistRow)
    {r : RefreshTokenRow} (hr : r ∈ l)
    (hacc : ∀ b ∈ acc, b.jti ≠ r.jti)
    (hnodup : (l.map (fun x => x.jti)).Nodup) :
    toBlacklistRow r ∈ l.foldl (fun a x => blInsert a (toBlacklistRow x)) acc := by
  induction l generalizing acc with
  | nil => cases hr
  | cons x xs ih =>
    simp only [List.map_cons, List.nodup_cons] at hnodup
    obtain ⟨hxnotin, hnd⟩ := hnodup
    rw [List.foldl_cons]
    rcases List.mem_cons.mp hr with rfl | hrxs
    · exact mem_foldl_blInsert_of_mem xs _ (self_mem_blInsert hacc)
    · refine ih _ hrxs ?_ hnd
      intro b hb
      rcases eq_or_mem_of_mem_blInsert hb with hb' | rfl
      · exact hacc b hb'
      · intro hEq
        have hEq' : x.jti = r.jti := hEq
        exact hxnotin (hEq' ▸ List.mem_map.mpr ⟨r, hrxs, rfl⟩)

theorem is_token_blacklisted_iff {s : PGState} {jti : String} {now : Nat}
    (hok : s.dbOk = true) :
    is_token_blacklisted s jti now = true ↔
      ∃ b ∈ s.token_blacklist, b.jti = jti ∧ now < b.expires_at := by
  simp [is_token_blacklisted, hok, List.any_eq_true]

end PostgreSQLStorage

/-- C1: fail closed.  When the storage backend is unreachable,
is_token_blacklisted returns true ("blacklisted") for every jti; consequently
verify_token never returns success for any presented token, and a token that
decodes correctly with the expected type fails exactly as a revoked token
does (401 "Token has been revoked") — the storage failure is never surfaced
to the caller as "not blacklisted"/valid. -/
theorem C1_fail_closed (s : PGState) (hdown : s.dbOk = false) :
    (∀ jti now, PostgreSQLStorage.is_token_blacklisted s jti now = true) ∧
    (∀ cfg tok req ttype now (p : Claims),
      (SecureJWTManager.verify_token cfg s tok req ttype now).1 ≠ .ok p) ∧
    (∀ cfg tok req ttype now (p : Claims),
      jwtDecode tok cfg.secret_key cfg.algorithm cfg.audience cfg.issuer now = .ok p →
      p.type = ttype →
      (SecureJWTManager.verify_token cfg s tok req ttype now).1 =
        .error 401 "Token has been revoked") := by
  have hbl : ∀ jti now, PostgreSQLStorage.is_token_blacklisted s jti now = true := by
    intro jti now
    simp [PostgreSQLStorage.is_token_blacklisted, hdown]
  refine ⟨hbl, ?_, ?_⟩
  · intro cfg tok req ttype now p
    unfold SecureJWTManager.verify_token
    cases hd : jwtDecode tok cfg.secret_key cfg.algorithm cfg.audience cfg.issuer now with
    | error e => cases e <;> simp
    | ok payload =>
      by_cases hty : payload.type = ttype
      · simp [hty, hbl]
      · simp [hty]
  · intro cfg tok req ttype now p hd hty
    unfold SecureJWTManager.verify_token
    rw [hd]
    simp [hty, hbl]

/-- C1 witness: applying the fail-closed theorem to a concrete unreachable
state. -/
theorem C1_fail_closed_witness :
    PostgreSQLStorage.is_token_blacklisted exDown "jti-1" 0 = true :=
  (C1_fail_closed exDown rfl).1 "jti-1" 0

/-- C6: issuance is all-or-nothing.  If the track_device call made inside
create_access_token fails, create_access_token raises HTTPException 500 and
returns no token; likewise for the store_refresh_token call inside
create_refresh_token.  Conversely, a returned token implies the storage write
it depends on succeeded. -/
theorem C6_issuance_all_or_nothing :
    ∀ cfg (s : PGState) user req rjti jti now,
      (s.dbOk = false →
        (SecureJWTManager.create_access_token cfg s user req rjti jti now).1 =
          .error (500, "Authentication failed") ∧
        (SecureJWTManager.create_refresh_token cfg s user req jti now).1 =
          .error (500, "Authentication failed")) ∧
      (∀ x, (SecureJWTManager.create_access_token cfg s user req rjti jti now).1 = .ok x →
        (PostgreSQLStorage.track_device s user.id (create_device_fingerprint req)
          cfg.refresh_token_ttl
          (device_metadata (req.client.getD "unknown") req.user_agent now) now).1 = true) ∧
      (∀ x, (SecureJWTManager.create_refresh_token cfg s user req jti now).1 = .ok x →
        (PostgreSQLStorage.store_refresh_token s jti user.id
          (create_device_fingerprint req) cfg.refresh_token_ttl
          (refresh_metadata now (now + cfg.refresh_token_ttl)) now
          cfg.max_refresh_tokens).1 = true) := by
  intro cfg s user req rjti jti now
  refine ⟨?_, ?_, ?_⟩
  · intro hdown
    constructor
    · simp [SecureJWTManager.create_access_token, PostgreSQLStorage.track_device, hdown]
    · simp [SecureJWTManager.create_refresh_token, PostgreSQLStorage.store_refresh_token, hdown]
  · intro x hx
    cases hdb : s.dbOk with
    | false =>
      exfalso
      simp [SecureJWTManager.create_access_token, PostgreSQLStorage.track_device, hdb] at hx
    | true => simp [PostgreSQLStorage.track_device, hdb]
  · intro x hx
    cases hdb : s.dbOk with
    | false =>
      exfalso
      simp [SecureJWTManager.create_refresh_token, PostgreSQLStorage.store_refresh_token, hdb] at hx
    | true => simp [PostgreSQLStorage.store_refresh_token, hdb]

/-- C6 witness: with the database down, both issuance operations fail with
HTTPException 500 "Authentication failed" and hand no token back. -/
theorem C6_issuance_all_or_nothing_witness :
    (SecureJWTManager.create_access_token exCfg exDown exUser exReqA none "j6" 100).1 =
      .error (500, "Authentication failed") ∧
    (SecureJWTManager.create_refresh_token exCfg exDown exUser exReqA "j6" 100).1 =
      .error (500, "Authentication failed") :=
  (C6_issuance_all_or_nothing exCfg exDown exUser exReqA none "j6" 100).1 rfl

/-- C10: IP validation is observation-only.  The observable result of
verify_token is independent of ENABLE_IP_VALIDATION (only the logged warnings
can differ), and concretely: with IP validation enabled, a token whose
embedded client_ip differs from the current IP by more than the allowed /24
subnet (is_ip_change_allowed = false) still verifies successfully. -/
theorem C10_ip_validation_observation_only :
    (∀ cfg (s : PGState) tok req ttype now b,
      (SecureJWTManager.verify_token { cfg with enable_ip_validation := b }
          s tok req ttype now).1 =
      (SecureJWTManager.verify_token cfg s tok req ttype now).1) ∧
    SecureJWTManager.is_ip_change_allowed "203.0.113.5" "198.51.100.7" = false ∧
    (SecureJWTManager.verify_token exCfgIP exStateDev exTok exReqB "access" 150).1 =
      .ok exClaims := by
  refine ⟨?_, by decide, by decide⟩
  intro cfg s tok req ttype now b
  simp only [SecureJWTManager.verify_token]
  cases hd : jwtDecode tok cfg.secret_key cfg.algorithm cfg.audience cfg.issuer now with
  | error e => cases e <;> rfl
  | ok payload =>
    dsimp only
    split_ifs <;> rfl

/-- C2 counterexample: the claim predicts that a token issued for fingerprint
A, presented from a device with fingerprint B not in the user's device
registry, is rejected with DeviceAuthorizationChanged.  On the code this is
false: verify_token checks the TOKEN's embedded fingerprint (A) against the
registry, not the freshly computed one (B); here A is registered, B is not,
the fingerprints differ — and verification succeeds. -/
theorem C2_device_check_counterexample :
    exClaims.device_fp ≠ create_device_fingerprint exReqB ∧
    create_device_fingerprint exReqB ∉
      (SecureJWTManager.get_user_devices exStateDev "u1" 150).map
        (fun d => d.device_fp) ∧
    (SecureJWTManager.verify_token exCfg exStateDev exTok exReqB "access" 150).1 =
      .ok exClaims :=
  ⟨by decide, by decide, by decide⟩

/-- The claims record produced by decoding the example token. -/
theorem exTok_decodes :
    jwtDecode exTok exCfg.secret_key exCfg.algorithm exCfg.audience
      exCfg.issuer 150 = .ok exClaims := by
  rfl

/-- C2 amended: in verify_token, when the token's embedded device fingerprint
differs from the fingerprint freshly computed from the current request, the
manager checks whether the TOKEN'S EMBEDDED fingerprint is among the user's
registered devices; if it is not, verification fails with
DeviceAuthorizationChanged, and if it is, verification succeeds (the freshly
computed fingerprint plays no role in the fallback lookup). -/
theorem C2_device_check_amended (cfg : JWTConfig) (s : PGState) (tok : Token)
    (req : Request) (ttype : String) (now : Nat) (p : Claims)
    (hd : jwtDecode tok cfg.secret_key cfg.algorithm cfg.audience cfg.issuer now = .ok p)
    (hty : p.type = ttype)
    (hbl : PostgreSQLStorage.is_token_blacklisted s p.jti now = false)
    (hrj : ∀ r, p.refresh_jti = some r →
      PostgreSQLStorage.get_refresh_token s r now ≠ none)
    (hfp1 : p.device_fp ≠ "")
    (hfp2 : p.device_fp ≠ create_device_fingerprint req) :
    (p.device_fp ∉ (PostgreSQLStorage.get_user_devices s p.user_id now).map
        (fun d => d.device_fp) →
      (SecureJWTManager.verify_token cfg s tok req ttype now).1 =
        .error 401 "Device authorization changed") ∧
    (p.device_fp ∈ (PostgreSQLStorage.get_user_devices s p.user_id now).map
        (fun d => d.device_fp) →
      (SecureJWTManager.verify_token cfg s tok req ttype now).1 = .ok p) := by
  have hri : (ttype == "access" &&
      (match p.refresh_jti with
       | some r => (PostgreSQLStorage.get_refresh_token s r now).isNone
       | none => false)) = false := by
    cases hj : p.refresh_jti with
    | none => simp
    | some r =>
      have hne := hrj r hj
      have hfalse : (PostgreSQLStorage.get_refresh_token s r now).isNone = false := by
        cases hg : PostgreSQLStorage.get_refresh_token s r now with
        | none => exact absurd hg hne
        | some v => rfl
      simp [hfalse]
  constructor
  · intro hnot
    have hnot' : ¬∃ a ∈ PostgreSQLStorage.get_user_devices s p.user_id now,
        a.device_fp = p.device_fp := by simpa [List.mem_map] using hnot
    unfold SecureJWTManager.verify_token
    rw [hd]
    simp [hty, hbl, hri, hfp1, hfp2, hnot']
  · intro hmem
    have hmem' : ∃ a ∈ PostgreSQLStorage.get_user_devices s p.user_id now,
        a.device_fp = p.device_fp := by simpa [List.mem_map] using hmem
    unfold SecureJWTManager.verify_token
    rw [hd]
    simp [hty, hbl, hri, hfp1, hfp2, hmem']

/-- C2 amended witness: the concrete counterexample scenario with an empty
device registry — the token's embedded fingerprint is unregistered, so
verification fails with DeviceAuthorizationChanged. -/
theorem C2_device_check_amended_witness :
    (SecureJWTManager.verify_token exCfg exEmpty exTok exReqB "access" 150).1 =
      .error 401 "Device authorization changed" :=
  (C2_device_check_amended exCfg exEmpty exTok exReqB "access" 150 exClaims
    exTok_decodes rfl (by decide) (fun r h => Option.noConfusion h)
    (by decide) (by decide)).1 (by decide)

/-- C3: revocation read-after-write.  After a successful
blacklist_token(jti, user_id, ttl) at time now, for every t before the new
blacklist entry's expiry now + ttl, is_token_blacklisted reports the jti as
blacklisted, and verify_token on any token carrying that jti (that decodes
correctly with the expected type) fails with 401 "Token has been revoked". -/
theorem C3_revocation_read_after_write (s : PGState) (jti uid : String)
    (ttl now : Nat) (s' : PGState)
    (hfresh : ∀ e ∈ s.token_blacklist, e.jti ≠ jti)
    (hcall : PostgreSQLStorage.blacklist_token s jti uid ttl now = (true, s')) :
    ∀ t, t < now + ttl →
      PostgreSQLStorage.is_token_blacklisted s' jti t = true ∧
      ∀ cfg (tok : Token) (req : Request) ttype (p : Claims),
        jwtDecode tok cfg.secret_key cfg.algorithm cfg.audience cfg.issuer t = .ok p →
        p.jti = jti → p.type = ttype →
        (SecureJWTManager.verify_token cfg s' tok req ttype t).1 =
          .error 401 "Token has been revoked" := by
  have hdb : s.dbOk = true := by
    cases h : s.dbOk with
    | true => rfl
    | false => simp [PostgreSQLStorage.blacklist_token, h] at hcall
  have happ : PostgreSQLStorage.blInsert s.token_blacklist ⟨jti, uid, now + ttl⟩ =
      s.token_blacklist ++ [⟨jti, uid, now + ttl⟩] := by
    unfold PostgreSQLStorage.blInsert
    rw [if_neg]
    intro hc
    obtain ⟨b, hb, hbeq⟩ := List.any_eq_true.mp hc
    exact hfresh b hb (beq_iff_eq.mp hbeq)
  have hupd : (⟨PostgreSQLStorage.blInsert s.token_blacklist ⟨jti, uid, now + ttl⟩,
      s.refresh_tokens, s.user_devices, true⟩ : PGState) = s' := by
    have h2 := hcall
    simp only [PostgreSQLStorage.blacklist_token, hdb, if_true] at h2
    exact congrArg Prod.snd h2
  subst hupd
  intro t ht
  have hbl : PostgreSQLStorage.is_token_blacklisted
      ⟨PostgreSQLStorage.blInsert s.token_blacklist ⟨jti, uid, now + ttl⟩,
        s.refresh_tokens, s.user_devices, true⟩
      jti t = true := by
    simp [PostgreSQLStorage.is_token_blacklisted, happ, List.any_append, ht]
  refine ⟨hbl, ?_⟩
  intro cfg tok req ttype p hd hpj hty
  unfold SecureJWTManager.verify_token
  rw [hd]
  simp [hty, hpj, hbl]

/-- C3 witness: blacklisting a fresh jti in the empty store at time 100 with
ttl 300 makes it report as blacklisted at time 350. -/
theorem C3_revocation_read_after_write_witness :
    PostgreSQLStorage.is_token_blacklisted
      (PostgreSQLStorage.blacklist_token exEmpty "jti-3" "u1" 300 100).2
      "jti-3" 350 = true :=
  ((C3_revocation_read_after_write exEmpty "jti-3" "u1" 300 100
    (PostgreSQLStorage.blacklist_token exEmpty "jti-3" "u1" 300 100).2
    (fun e he => absurd he (List.not_mem_nil e)) rfl) 350 (by decide)).1

/-- C5 counterexample: the claim predicts that invalid-signature and
malformed tokens are distinguishable outcomes of verify_token.  On the code
both are caught by the same except jwt.InvalidTokenError clause and collapse
to the identical 401 "Invalid token" result, as these two concrete tokens —
one signed with the wrong secret, one structurally malformed — show. -/
theorem C5_error_kinds_counterexample :
    jwtDecode exTokBadSig exCfg.secret_key exCfg.algorithm exCfg.audience
      exCfg.issuer 150 = .error .invalidSignature ∧
    jwtDecode exTokRaw exCfg.secret_key exCfg.algorithm exCfg.audience
      exCfg.issuer 150 = .error .decodeError ∧
    (SecureJWTManager.verify_token exCfg exEmpty exTokBadSig exReqA "access" 150).1 =
      (SecureJWTManager.verify_token exCfg exEmpty exTokRaw exReqA "access" 150).1 :=
  ⟨rfl, rfl, by decide⟩

/-- C5 amended: verify_token distinguishes exactly two kinds of decode
failure: an expired token yields 401 "Token has expired", while every other
decode error — invalid signature and structurally malformed alike — yields
the single generic 401 "Invalid token" outcome; expired is distinguishable
from the generic outcome, but invalid-signature and malformed are collapsed. -/
theorem C5_error_kinds_amended :
    ∀ cfg (s : PGState) (tok : Token) (req : Request) ttype now (e : DecodeError),
      jwtDecode tok cfg.secret_key cfg.algorithm cfg.audience cfg.issuer now = .error e →
      ((e = .expiredSignature →
        (SecureJWTManager.verify_token cfg s tok req ttype now).1 =
          .error 401 "Token has expired") ∧
       (e ≠ .expiredSignature →
        (SecureJWTManager.verify_token cfg s tok req ttype now).1 =
          .error 401 "Invalid token")) ∧
      VerifyResult.error 401 "Token has expired" ≠
        VerifyResult.error 401 "Invalid token" := by
  intro cfg s tok req ttype now e hd
  refine ⟨⟨?_, ?_⟩, by decide⟩
  · intro he
    subst he
    unfold SecureJWTManager.verify_token
    rw [hd]
  · intro he
    unfold SecureJWTManager.verify_token
    rw [hd]
    cases e with
    | expiredSignature => exact absurd rfl he
    | invalidSignature => rfl
    | decodeError => rfl
    | immatureSignature => rfl
    | invalidAudience => rfl
    | invalidIssuer => rfl

/-- C5 amended witness: the malformed example token yields the generic
invalid-token outcome. -/
theorem C5_error_kinds_amended_witness :
    (SecureJWTManager.verify_token exCfg exEmpty exTokRaw exReqA "access" 150).1 =
      .error 401 "Invalid token" :=
  ((C5_error_kinds_amended exCfg exEmpty exTokRaw exReqA "access" 150
    .decodeError rfl).1).2 (by decide)

/-- Decoding a token signed with the configured secret and algorithm succeeds
while the token is inside its validity window and the issuer/audience
match. -/
theorem jwtDecode_encode {c : Claims} {secret alg aud iss : String} {t : Nat}
    (haud : c.aud = aud) (hiss : c.iss = iss)
    (hnbf : c.nbf ≤ t) (hexp : t < c.exp) :
    jwtDecode (jwtEncode c secret alg) secret alg aud iss t = .ok c := by
  unfold jwtEncode jwtDecode
  dsimp only
  rw [if_neg (by simp), if_neg (by omega), if_neg (by omega),
      if_neg (by simp [haud]), if_neg (by simp [hiss])]

/-- A jti none of whose blacklist entries is still live is reported as not
blacklisted (over a reachable database). -/
theorem is_token_blacklisted_eq_false {s : PGState} {jti : String} {t : Nat}
    (hok : s.dbOk = true)
    (h : ∀ b ∈ s.token_blacklist, b.jti = jti → b.expires_at ≤ t) :
    PostgreSQLStorage.is_token_blacklisted s jti t = false := by
  simp only [PostgreSQLStorage.is_token_blacklisted, hok, if_true]
  rw [List.any_eq_false]
  intro b hb
  by_cases hj : b.jti = jti
  · simp [hj, Nat.not_lt.mpr (h b hb hj)]
  · simp [hj]

/-- Inserting a blacklist row whose jti is fresh appends it (the ON CONFLICT
clause does not fire). -/
theorem blInsert_eq_append {bl : List BlacklistRow} {row : BlacklistRow}
    (h : ∀ b ∈ bl, b.jti ≠ row.jti) :
    PostgreSQLStorage.blInsert bl row = bl ++ [row] := by
  unfold PostgreSQLStorage.blInsert
  rw [if_neg]
  intro hc
  obtain ⟨b, hb, hbeq⟩ := List.any_eq_true.mp hc
  exact h b hb (beq_iff_eq.mp hbeq)

/-- C8: round-trip.  For every user data and request context, when the
storage write succeeds (reachable database), verifying the token produced by
create_access_token with the same request context and expected type "access",
at any time within access_token_ttl of issuance and with the jti not
blacklisted, succeeds and returns claims whose user_id equals the user_id
given at issuance and whose type is "access". -/
theorem C8_roundtrip (cfg : JWTConfig) (s : PGState) (user : UserData)
    (req : Request) (jti : String) (now t : Nat)
    (hok : s.dbOk = true)
    (hnotbl : ∀ b ∈ s.token_blacklist, b.jti ≠ jti)
    (h1 : now ≤ t) (h2 : t < now + cfg.access_token_ttl) :
    ∃ c : Claims,
      (SecureJWTManager.create_access_token cfg s user req none jti now).1 =
        .ok (jwtEncode c cfg.secret_key cfg.algorithm, jti) ∧
      (SecureJWTManager.verify_token cfg
        (SecureJWTManager.create_access_token cfg s user req none jti now).2
        (jwtEncode c cfg.secret_key cfg.algorithm) req "access" t).1 = .ok c ∧
      c.user_id = user.id ∧ c.type = "access" := by
  set c : Claims :=
    { iss := cfg.issuer, aud := cfg.audience, sub := user.id,
      exp := now + cfg.access_token_ttl, iat := now, nbf := now, jti := jti,
      type := "access", user_id := user.id, email := user.email,
      role := user.role, device_fp := create_device_fingerprint req,
      client_ip := req.client.getD "unknown", refresh_jti := none,
      version := "1.0" } with hc
  obtain ⟨ud, hs2⟩ : ∃ ud,
      (SecureJWTManager.create_access_token cfg s user req none jti now).2 =
        ⟨s.token_blacklist, s.refresh_tokens, ud, true⟩ := by
    refine ⟨(PostgreSQLStorage.track_device s user.id (create_device_fingerprint req)
      cfg.refresh_token_ttl
      (device_metadata (req.client.getD "unknown") req.user_agent now) now).2.user_devices, ?_⟩
    simp [SecureJWTManager.create_access_token, PostgreSQLStorage.track_device, hok]
  have hd : jwtDecode (jwtEncode c cfg.secret_key cfg.algorithm) cfg.secret_key
      cfg.algorithm cfg.audience cfg.issuer t = .ok c :=
    jwtDecode_encode rfl rfl h1 h2
  have hbl : PostgreSQLStorage.is_token_blacklisted
      (⟨s.token_blacklist, s.refresh_tokens, ud, true⟩ : PGState) jti t = false :=
    is_token_blacklisted_eq_false rfl
      (fun b hb hj => absurd hj (hnotbl b hb))
  refine ⟨c, ?_, ?_, rfl, rfl⟩
  · simp [SecureJWTManager.create_access_token, PostgreSQLStorage.track_device, hok, hc]
  · rw [hs2]
    unfold SecureJWTManager.verify_token
    rw [hd]
    simp [hc, hbl]

/-- C8 witness: issuing at time 100 in empty storage and verifying at time
150 with the same request succeeds. -/
theorem C8_roundtrip_witness :
    ∃ c : Claims,
      (SecureJWTManager.create_access_token exCfg exEmpty exUser exReqA none "jti-8" 100).1 =
        .ok (jwtEncode c exCfg.secret_key exCfg.algorithm, "jti-8") ∧
      (SecureJWTManager.verify_token exCfg
        (SecureJWTManager.create_access_token exCfg exEmpty exUser exReqA none "jti-8" 100).2
        (jwtEncode c exCfg.secret_key exCfg.algorithm) exReqA "access" 150).1 = .ok c ∧
      c.user_id = exUser.id ∧ c.type = "access" :=
  C8_roundtrip exCfg exEmpty exUser exReqA "jti-8" 100 150 rfl
    (fun b hb => absurd hb (List.not_mem_nil b)) (by decide) (by decide)

/-- C9: default blacklist TTL.  The manager's blacklist_token applies the
default expiry_seconds = 300 when the caller omits it, regardless of the
revoked token's own remaining lifetime: for a refresh token issued with the
default refresh TTL of 86400 seconds and revoked via the default at its
issuance time, the blacklist entry expires at now + 300, and at any time t
with now + 300 ≤ t < now + 86400 the token still decodes successfully (it has
not expired) yet is_token_blacklisted reports it as NOT blacklisted. -/
theorem C9_default_blacklist_ttl (cfg : JWTConfig) (s : PGState)
    (user : UserData) (req : Request) (jti : String) (now t : Nat)
    (hok : s.dbOk = true)
    (httl : cfg.refresh_token_ttl = JWT_REFRESH_TTL_default)
    (hfresh : ∀ b ∈ s.token_blacklist, b.jti ≠ jti)
    (h1 : now + 300 ≤ t) (h2 : t < now + JWT_REFRESH_TTL_default) :
    ∃ c : Claims,
      (SecureJWTManager.create_refresh_token cfg s user req jti now).1 =
        .ok (jwtEncode c cfg.secret_key cfg.algorithm, jti) ∧
      c.exp = now + JWT_REFRESH_TTL_default ∧
      jwtDecode (jwtEncode c cfg.secret_key cfg.algorithm) cfg.secret_key
        cfg.algorithm cfg.audience cfg.issuer t = .ok c ∧
      (SecureJWTManager.blacklist_token_default
        (SecureJWTManager.create_refresh_token cfg s user req jti now).2
        jti user.id now).1 = true ∧
      (∃ e ∈ (SecureJWTManager.blacklist_token_default
          (SecureJWTManager.create_refresh_token cfg s user req jti now).2
          jti user.id now).2.token_blacklist,
        e.jti = jti ∧ e.expires_at = now + 300) ∧
      PostgreSQLStorage.is_token_blacklisted
        (SecureJWTManager.blacklist_token_default
          (SecureJWTManager.create_refresh_token cfg s user req jti now).2
          jti user.id now).2 jti t = false := by
  set c : Claims :=
    { iss := cfg.issuer, aud := cfg.audience, sub := user.id,
      exp := now + cfg.refresh_token_ttl, iat := now, nbf := now, jti := jti,
      type := "refresh", user_id := user.id, email := none, role := none,
      device_fp := create_device_fingerprint req,
      client_ip := req.client.getD "unknown", refresh_jti := none,
      version := "1.0" } with hc
  obtain ⟨rt, hs1⟩ : ∃ rt,
      (SecureJWTManager.create_refresh_token cfg s user req jti now).2 =
        ⟨s.token_blacklist, rt, s.user_devices, true⟩ := by
    refine ⟨(PostgreSQLStorage.store_refresh_token s jti user.id
      (create_device_fingerprint req) cfg.refresh_token_ttl
      (refresh_metadata now (now + cfg.refresh_token_ttl)) now
      cfg.max_refresh_tokens).2.refresh_tokens, ?_⟩
    simp [SecureJWTManager.create_refresh_token,
      PostgreSQLStorage.store_refresh_token, hok]
  have happ : PostgreSQLStorage.blInsert s.token_blacklist
      ⟨jti, user.id, now + 300⟩ = s.token_blacklist ++ [⟨jti, user.id, now + 300⟩] :=
    blInsert_eq_append (fun b hb => hfresh b hb)
  have hrev : SecureJWTManager.blacklist_token_default
      (SecureJWTManager.create_refresh_token cfg s user req jti now).2
      jti user.id now =
      (true, ⟨s.token_blacklist ++ [⟨jti, user.id, now + 300⟩], rt,
        s.user_devices, true⟩) := by
    rw [hs1]
    simp [SecureJWTManager.blacklist_token_default,
      SecureJWTManager.blacklist_token, PostgreSQLStorage.blacklist_token, happ]
  refine ⟨c, ?_, ?_, ?_, ?_, ?_, ?_⟩
  · simp [SecureJWTManager.create_refresh_token,
      PostgreSQLStorage.store_refresh_token, hok, hc]
  · rw [hc, httl]
  · exact jwtDecode_encode rfl rfl (by rw [hc]; dsimp only; omega)
      (by rw [hc]; dsimp only; omega)
  · rw [hrev]
  · rw [hrev]
    exact ⟨⟨jti, user.id, now + 300⟩,
      List.mem_append_right _ (List.mem_singleton.mpr rfl), rfl, rfl⟩
  · rw [hrev]
    refine is_token_blacklisted_eq_false rfl ?_
    intro b hb hj
    rcases List.mem_append.mp hb with hb' | hb'
    · exact absurd hj (hfresh b hb')
    · rw [List.mem_singleton.mp hb']
      dsimp only
      omega

/-- C9 witness: issuing a refresh token at time 100 and revoking it via the
default TTL leaves it reported as not blacklisted at time 500, although the
token itself is valid until 86500. -/
theorem C9_default_blacklist_ttl_witness :
    ∃ c : Claims,
      (SecureJWTManager.create_refresh_token exCfg exEmpty exUser exReqA "jti-9" 100).1 =
        .ok (jwtEncode c exCfg.secret_key exCfg.algorithm, "jti-9") ∧
      c.exp = 100 + JWT_REFRESH_TTL_default ∧
      jwtDecode (jwtEncode c exCfg.secret_key exCfg.algorithm) exCfg.secret_key
        exCfg.algorithm exCfg.audience exCfg.issuer 500 = .ok c ∧
      (SecureJWTManager.blacklist_token_default
        (SecureJWTManager.create_refresh_token exCfg exEmpty exUser exReqA "jti-9" 100).2
        "jti-9" exUser.id 100).1 = true ∧
      (∃ e ∈ (SecureJWTManager.blacklist_token_default
          (SecureJWTManager.create_refresh_token exCfg exEmpty exUser exReqA "jti-9" 100).2
          "jti-9" exUser.id 100).2.token_blacklist,
        e.jti = "jti-9" ∧ e.expires_at = 100 + 300) ∧
      PostgreSQLStorage.is_token_blacklisted
        (SecureJWTManager.blacklist_token_default
          (SecureJWTManager.create_refresh_token exCfg exEmpty exUser exReqA "jti-9" 100).2
          "jti-9" exUser.id 100).2 "jti-9" 500 = false :=
  C9_default_blacklist_ttl exCfg exEmpty exUser exReqA "jti-9" 100 500 rfl rfl
    (fun b hb => absurd hb (List.not_mem_nil b)) (by decide) (by decide)

/-- C7: revoke_user_tokens(user_id) blacklists all of the user's
currently-active (non-expired) refresh tokens (each entry carrying the
refresh token's own expiry), deletes all of the user's refresh-token records
and device records; consequently a subsequent verify_token on a decodable
access token whose refresh_jti references one of that user's refresh tokens
fails with Revoked or RefreshNoLongerValid — never succeeds. -/
theorem C7_revoke_user_tokens (s : PGState) (uid : String) (now : Nat)
    (s' : PGState)
    (hnodup : (s.refresh_tokens.map (fun r => r.jti)).Nodup)
    (hdisj : ∀ b ∈ s.token_blacklist, ∀ r ∈ s.refresh_tokens, b.jti ≠ r.jti)
    (hcall : PostgreSQLStorage.revoke_user_tokens s uid now = (true, s')) :
    (∀ r ∈ s.refresh_tokens, r.user_id = uid → now < r.expires_at →
      ∀ t, t < r.expires_at →
        PostgreSQLStorage.is_token_blacklisted s' r.jti t = true) ∧
    (∀ r ∈ s'.refresh_tokens, r.user_id ≠ uid) ∧
    (∀ d ∈ s'.user_devices, d.user_id ≠ uid) ∧
    (∀ cfg (tok : Token) (req : Request) (p : Claims) (rj : String),
      jwtDecode tok cfg.secret_key cfg.algorithm cfg.audience cfg.issuer now = .ok p →
      p.type = "access" → p.refresh_jti = some rj →
      (∃ row ∈ s.refresh_tokens, row.jti = rj ∧ row.user_id = uid) →
      (SecureJWTManager.verify_token cfg s' tok req "access" now).1 =
          .error 401 "Token has been revoked" ∨
      (SecureJWTManager.verify_token cfg s' tok req "access" now).1 =
          .error 401 "Refresh token no longer valid") := by
  have hdb : s.dbOk = true := by
    cases h : s.dbOk with
    | true => rfl
    | false => simp [PostgreSQLStorage.revoke_user_tokens, h] at hcall
  have hs' : (⟨(s.refresh_tokens.filter
        (fun r => r.user_id == uid && decide (now < r.expires_at))).foldl
        (fun acc r => PostgreSQLStorage.blInsert acc (PostgreSQLStorage.toBlacklistRow r))
        s.token_blacklist,
      s.refresh_tokens.filter (fun r => r.user_id != uid),
      s.user_devices.filter (fun d => d.user_id != uid), true⟩ : PGState) = s' := by
    have h2 := hcall
    simp only [PostgreSQLStorage.revoke_user_tokens, hdb, if_true] at h2
    exact congrArg Prod.snd h2
  subst hs'
  refine ⟨?_, ?_, ?_, ?_⟩
  · intro r hr hu hexp t ht
    have hmemf : r ∈ s.refresh_tokens.filter
        (fun r => r.user_id == uid && decide (now < r.expires_at)) :=
      List.mem_filter.mpr ⟨hr, by simp [hu, hexp]⟩
    have hnd : ((s.refresh_tokens.filter
        (fun r => r.user_id == uid && decide (now < r.expires_at))).map
        (fun r => r.jti)).Nodup :=
      hnodup.sublist ((List.filter_sublist _).map _)
    have hadd := PostgreSQLStorage.foldl_blInsert_adds
      (s.refresh_tokens.filter
        (fun r => r.user_id == uid && decide (now < r.expires_at)))
      s.token_blacklist hmemf
      (fun b hb => hdisj b hb r hr) hnd
    exact (PostgreSQLStorage.is_token_blacklisted_iff rfl).mpr
      ⟨PostgreSQLStorage.toBlacklistRow r, hadd, rfl, ht⟩
  · intro r hr
    have := (List.mem_filter.mp hr).2
    exact bne_iff_ne.mp this
  · intro d hd
    have := (List.mem_filter.mp hd).2
    exact bne_iff_ne.mp this
  · intro cfg tok req p rj hd hty hrj hex
    obtain ⟨row, hrow, hrowj, hrowu⟩ := hex
    cases hbl : PostgreSQLStorage.is_token_blacklisted
        ⟨(s.refresh_tokens.filter
          (fun r => r.user_id == uid && decide (now < r.expires_at))).foldl
          (fun acc r => PostgreSQLStorage.blInsert acc (PostgreSQLStorage.toBlacklistRow r))
          s.token_blacklist,
        s.refresh_tokens.filter (fun r => r.user_id != uid),
        s.user_devices.filter (fun d => d.user_id != uid), true⟩ p.jti now with
    | true =>
      refine Or.inl ?_
      unfold SecureJWTManager.verify_token
      rw [hd]
      simp [hty, hbl]
    | false =>
      refine Or.inr ?_
      have hget : PostgreSQLStorage.get_refresh_token
          ⟨(s.refresh_tokens.filter
            (fun r => r.user_id == uid && decide (now < r.expires_at))).foldl
            (fun acc r => PostgreSQLStorage.blInsert acc (PostgreSQLStorage.toBlacklistRow r))
            s.token_blacklist,
          s.refresh_tokens.filter (fun r => r.user_id != uid),
          s.user_devices.filter (fun d => d.user_id != uid), true⟩ rj now = none := by
        unfold PostgreSQLStorage.get_refresh_token
        rw [if_pos rfl, List.find?_eq_none]
        intro x hx hcontra
        obtain ⟨hx', hxp⟩ := List.mem_filter.mp hx
        have hxj : x.jti = rj := by
          simp only [Bool.and_eq_true, beq_iff_eq] at hcontra
          exact hcontra.1
        have hxrow : x = row :=
          List.inj_on_of_nodup_map hnodup hx' hrow (by rw [hxj, hrowj])
        rw [hxrow] at hxp
        simp [hrowu] at hxp
      unfold SecureJWTManager.verify_token
      rw [hd]
      simp [hty, hbl, hrj, hget]

/-- C7 witness: revoking user u1, who holds one active refresh token, leaves
that token's jti blacklisted. -/
theorem C7_revoke_user_tokens_witness :
    PostgreSQLStorage.is_token_blacklisted
      (PostgreSQLStorage.revoke_user_tokens
        ⟨[], [⟨"r7", "u1", "fpA", 86500, 100, "m"⟩], [], true⟩ "u1" 200).2
      "r7" 300 = true :=
  ((C7_revoke_user_tokens ⟨[], [⟨"r7", "u1", "fpA", 86500, 100, "m"⟩], [], true⟩
      "u1" 200
      (PostgreSQLStorage.revoke_user_tokens
        ⟨[], [⟨"r7", "u1", "fpA", 86500, 100, "m"⟩], [], true⟩ "u1" 200).2
      (by decide) (fun b hb => absurd hb (List.not_mem_nil b)) rfl).1
    ⟨"r7", "u1", "fpA", 86500, 100, "m"⟩ (by decide) rfl (by decide)
    300 (by decide))

/-- C4: per-user refresh-token cap.  After a successful store_refresh_token
of a fresh jti at a time later than every existing creation time of the
user's records, at most n records remain for that user, the newly stored
token is among the survivors, and every record deleted by the windowed prune
is no newer (by created_at) than every surviving record of that user. -/
theorem C4_refresh_cap (s : PGState) (jti user_id device_fp : String)
    (ttl : Nat) (meta : String) (now n : Nat) (s' : PGState)
    (hok : s.dbOk = true) (hn : 1 ≤ n)
    (hnodup : (s.refresh_tokens.map (fun r => r.jti)).Nodup)
    (hfresh : ∀ r ∈ s.refresh_tokens, r.jti ≠ jti)
    (hage : ∀ r ∈ s.refresh_tokens, r.user_id = user_id → r.created_at < now)
    (hcall : PostgreSQLStorage.store_refresh_token s jti user_id device_fp
      ttl meta now n = (true, s')) :
    (s'.refresh_tokens.filter (fun r => r.user_id == user_id)).length ≤ n ∧
    (∃ r ∈ s'.refresh_tokens, r.jti = jti ∧ r.user_id = user_id) ∧
    (∀ d ∈ s.refresh_tokens, d.user_id = user_id → d ∉ s'.refresh_tokens →
      ∀ k ∈ s'.refresh_tokens, k.user_id = user_id →
        d.created_at ≤ k.created_at) := by
  set key : RefreshTokenRow → Nat := fun r => r.created_at with hkey
  set newRow : RefreshTokenRow := ⟨jti, user_id, device_fp, now + ttl, now, meta⟩
    with hnewRow
  set U : List RefreshTokenRow := s.refresh_tokens ++ [newRow] with hU
  set userRows : List RefreshTokenRow := U.filter (fun r => r.user_id == user_id)
    with huserRows
  set sorted : List RefreshTokenRow := sortByDesc key userRows with hsorted
  set K : List String := (sorted.take n).map (fun r => r.jti) with hK
  set P : List RefreshTokenRow :=
    U.filter (fun r => r.user_id != user_id || K.contains r.jti) with hP
  have hany : s.refresh_tokens.any (fun r => r.jti == jti) = false := by
    rw [List.any_eq_false]
    intro r hr
    simp [hfresh r hr]
  have hchar : s'.refresh_tokens = P := by
    have h2 := hcall
    simp only [PostgreSQLStorage.store_refresh_token, hok, eq_self_iff_true,
      if_true, hany, Bool.false_eq_true, if_false] at h2
    exact (congrArg PGState.refresh_tokens (congrArg Prod.snd h2)).symm
  have hUnodup : (U.map (fun r => r.jti)).Nodup := by
    rw [hU, List.map_append, List.nodup_append]
    refine ⟨hnodup, List.nodup_singleton _, ?_⟩
    intro a ha hb
    obtain ⟨r, hr, hrj⟩ := List.mem_map.mp ha
    have hb' : a = jti := by simpa [hnewRow] using hb
    exact hfresh r hr (hrj.trans hb')
  have hmemU_new : newRow ∈ U := by
    rw [hU]
    exact List.mem_append_right _ (List.mem_singleton.mpr rfl)
  have hnew_user : newRow.user_id = user_id := by rw [hnewRow]
  have hnew_jti : newRow.jti = jti := by rw [hnewRow]
  have hmem_userRows_new : newRow ∈ userRows := by
    rw [huserRows]
    exact List.mem_filter.mpr ⟨hmemU_new, by simp [hnew_user]⟩
  have hmax : ∀ y ∈ userRows, y ≠ newRow → key y < key newRow := by
    intro y hy hne
    rw [huserRows] at hy
    obtain ⟨hyU, hyp⟩ := List.mem_filter.mp hy
    rw [hU] at hyU
    rcases List.mem_append.mp hyU with hyS | hyNew
    · have hyu : y.user_id = user_id := beq_iff_eq.mp hyp
      have := hage y hyS hyu
      simpa [hkey, hnewRow] using this
    · exact absurd (List.mem_singleton.mp hyNew) hne
  have htake : newRow ∈ sorted.take n := by
    rw [hsorted]
    exact mem_take_sortByDesc hn hmem_userRows_new hmax
  have hKnew : newRow.jti ∈ K := by
    rw [hK]
    exact List.mem_map.mpr ⟨newRow, htake, rfl⟩
  have hnewP : newRow ∈ P := by
    rw [hP]
    refine List.mem_filter.mpr ⟨hmemU_new, ?_⟩
    have hcont : K.contains newRow.jti = true := List.elem_iff.mpr hKnew
    rw [hcont, Bool.or_true]
  have hndUser : (userRows.map (fun r => r.jti)).Nodup := by
    refine hUnodup.sublist (List.Sublist.map _ ?_)
    rw [huserRows]
    exact List.filter_sublist _
  have hndSorted : (sorted.map (fun r => r.jti)).Nodup := by
    have hperm : List.Perm (userRows.map (fun r => r.jti))
        (sorted.map (fun r => r.jti)) := by
      rw [hsorted]
      exact ((perm_sortByDesc key userRows).map (fun r => r.jti)).symm
    exact hperm.nodup hndUser
  refine ⟨?_, ⟨newRow, by rw [hchar]; exact hnewP, hnew_jti, hnew_user⟩, ?_⟩
  · rw [hchar]
    have hsubK : ∀ r ∈ P.filter (fun r => r.user_id == user_id), r.jti ∈ K := by
      intro r hr
      obtain ⟨hrP, hru⟩ := List.mem_filter.mp hr
      rw [hP] at hrP
      obtain ⟨hrU, hrpred⟩ := List.mem_filter.mp hrP
      have hju : r.user_id = user_id := beq_iff_eq.mp hru
      have hbne : (r.user_id != user_id) = false := by simp [hju]
      rw [hbne, Bool.false_or] at hrpred
      exact List.elem_iff.mp hrpred
    have hsubsetK : (P.filter (fun r => r.user_id == user_id)).map
        (fun r => r.jti) ⊆ K := by
      intro a ha
      obtain ⟨r, hr, hrj⟩ := List.mem_map.mp ha
      exact hrj ▸ hsubK r hr
    have hPU : List.Sublist P U := by
      rw [hP]
      exact List.filter_sublist _
    have hndS : ((P.filter (fun r => r.user_id == user_id)).map
        (fun r => r.jti)).Nodup :=
      hUnodup.sublist (List.Sublist.map _ ((List.filter_sublist _).trans hPU))
    have hlen := (List.subperm_of_subset hndS hsubsetK).length_le
    rw [List.length_map] at hlen
    have hKlen : K.length ≤ n := by
      rw [hK, List.length_map, List.length_take]
      exact min_le_left _ _
    omega
  · intro d hd hdu hdnot k hk hku
    rw [hchar] at hdnot hk
    have hdU : d ∈ U := by
      rw [hU]
      exact List.mem_append_left _ hd
    have hdpred : (d.user_id != user_id || K.contains d.jti) = false := by
      cases h : (d.user_id != user_id || K.contains d.jti) with
      | false => rfl
      | true =>
        exact absurd (by rw [hP]; exact List.mem_filter.mpr ⟨hdU, h⟩) hdnot
    have hdK : d.jti ∉ K := by
      intro hmem
      have hcont : K.contains d.jti = true := List.elem_iff.mpr hmem
      rw [hcont, Bool.or_true] at hdpred
      exact absurd hdpred (by simp)
    have hdUser : d ∈ userRows := by
      rw [huserRows]
      exact List.mem_filter.mpr ⟨hdU, by simp [hdu]⟩
    have hdSorted : d ∈ sorted := by
      rw [hsorted]
      exact mem_sortByDesc.mpr hdUser
    have hdTD : d ∈ sorted.take n ++ sorted.drop n := by
      rw [List.take_append_drop]
      exact hdSorted
    have hdDrop : d ∈ sorted.drop n := by
      rcases List.mem_append.mp hdTD with h | h
      · exact absurd ((by rw [hK]; exact List.mem_map.mpr ⟨d, h, rfl⟩ :
          d.jti ∈ K)) hdK
      · exact h
    have hkP : k ∈ P := hk
    obtain ⟨hkU, hkpred⟩ := List.mem_filter.mp (by rw [hP] at hkP; exact hkP)
    have hkbne : (k.user_id != user_id) = false := by simp [hku]
    rw [hkbne, Bool.false_or] at hkpred
    have hkK : k.jti ∈ K := List.elem_iff.mp hkpred
    have hkUser : k ∈ userRows := by
      rw [huserRows]
      exact List.mem_filter.mpr ⟨hkU, by simp [hku]⟩
    have hkSorted : k ∈ sorted := by
      rw [hsorted]
      exact mem_sortByDesc.mpr hkUser
    have hkTake : k ∈ sorted.take n := by
      rw [hK] at hkK
      obtain ⟨k', hk', hk'j⟩ := List.mem_map.mp hkK
      have hk'S : k' ∈ sorted := List.take_subset n sorted hk'
      have hkk : k' = k := List.inj_on_of_nodup_map hndSorted hk'S hkSorted hk'j
      rw [← hkk]
      exact hk'
    have hpw : sorted.Pairwise (fun a b => key b ≤ key a) := by
      rw [hsorted]
      exact pairwise_sortByDesc key userRows
    have hle := key_le_of_take_drop hpw hkTake hdDrop
    simpa [hkey] using hle

/-- C4 witness: storing a sixth token for a user holding five (cap 5) keeps
exactly five records for that user. -/
theorem C4_refresh_cap_witness :
    ((PostgreSQLStorage.store_refresh_token
      ⟨[], [⟨"r0", "u1", "f0", 90000, 100, "m"⟩,
            ⟨"r1", "u1", "f1", 90001, 101, "m"⟩,
            ⟨"r2", "u1", "f2", 90002, 102, "m"⟩,
            ⟨"r3", "u1", "f3", 90003, 103, "m"⟩,
            ⟨"r4", "u1", "f4", 90004, 104, "m"⟩], [], true⟩
      "r5" "u1" "f5" 86400 "m" 105 5).2.refresh_tokens.filter
      (fun r => r.user_id == "u1")).length ≤ 5 :=
  (C4_refresh_cap
    ⟨[], [⟨"r0", "u1", "f0", 90000, 100, "m"⟩,
          ⟨"r1", "u1", "f1", 90001, 101, "m"⟩,
          ⟨"r2", "u1", "f2", 90002, 102, "m"⟩,
          ⟨"r3", "u1", "f3", 90003, 103, "m"⟩,
          ⟨"r4", "u1", "f4", 90004, 104, "m"⟩], [], true⟩
    "r5" "u1" "f5" 86400 "m" 105 5
    (PostgreSQLStorage.store_refresh_token
      ⟨[], [⟨"r0", "u1", "f0", 90000, 100, "m"⟩,
            ⟨"r1", "u1", "f1", 90001, 101, "m"⟩,
            ⟨"r2", "u1", "f2", 90002, 102, "m"⟩,
            ⟨"r3", "u1", "f3", 90003, 103, "m"⟩,
            ⟨"r4", "u1", "f4", 90004, 104, "m"⟩], [], true⟩
      "r5" "u1" "f5" 86400 "m" 105 5).2
    rfl (by decide) (by decide) (by decide) (by decide) rfl).1

end Svau
